import Mathlib

/-!
Shallow embedding of the expense-tracker REST backend
(`backend/routes/users.js`, the expense routes and the profile routes,
together with the Expense schema from `backend/models/Expense.js`).

Conventions of the embedding:
* Mongo `ObjectId`s are `Nat`, JavaScript numbers are `Rat`.
* A timestamp is a `JDate`: `ym` counts calendar months linearly
  (`year * 12 + month0` with `month0` in `0..11`) and `tick` orders the
  instants inside one month (day and time of day combined).
* A request-body field is an `Option`: `none` is an absent field.  For
  string fields the present empty string is the falsy value the handlers
  test with `||`; for the date field, which carries a non-string value
  once parsed, the present-but-falsy case gets its own constructor layer
  (`some none`).
* The database is the list of stored documents; every handler is a pure
  function from the authenticated user's id, the parsed request and the
  database to a response paired with the new database.
-/

/-- Calendar timestamp: `ym` counts months linearly, `tick` orders the
instants inside one month. -/
structure JDate where
  ym : Int
  tick : Nat
deriving DecidableEq

/-- Date comparison, the order MongoDB uses for `$gte` and `$lte` on dates
and for `sort` by date. -/
def JDate.le (a b : JDate) : Prop :=
  a.ym < b.ym ∨ (a.ym = b.ym ∧ a.tick ≤ b.tick)

instance : DecidableRel JDate.le := fun a b => by
  unfold JDate.le
  infer_instance

/-- The `$year` aggregation operator. -/
def JDate.year (d : JDate) : Int := d.ym.ediv 12

/-- The `$month` aggregation operator (months are numbered `1..12`). -/
def JDate.month (d : JDate) : Int := d.ym.emod 12 + 1

/-- The cutoff computed by the stats handler with
`sixMonthsAgo.setMonth(sixMonthsAgo.getMonth() - 6)`: the same instant six
calendar months before `now`. -/
def sixMonthsAgo (now : JDate) : JDate :=
  { ym := now.ym - 6, tick := now.tick }

/-- An Expense document (`models/Expense.js`): `id` is the Mongo `_id`,
`userId` the owning user's id; `category` and `paymentMethod` are the
enumerated strings of the schema. -/
structure Expense where
  id : Nat
  userId : Nat
  amount : Rat
  category : String
  description : String
  date : JDate
  paymentMethod : String
deriving DecidableEq

/-- `Expense.findById`: the stored document with the given id, if any. -/
def findById (eid : Nat) (db : List Expense) : Option Expense :=
  db.find? (fun e => e.id == eid)

/-- `expense.save()` after mutating a fetched document: the stored document
with that id is replaced by the saved one. -/
def saveById (eid : Nat) (e : Expense) (db : List Expense) : List Expense :=
  db.map (fun x => if x.id = eid then e else x)

/-- JSON responses produced by the expense route handlers: `error` carries
the HTTP status and the `message` field, `json` is a `res.json(expense)`
with implicit status 200, `createdJson` a `res.status(201).json(expense)`,
and `msg` a `res.json` of a bare message object. -/
inductive ExpRes where
  | error (status : Nat) (message : String)
  | json (e : Expense)
  | createdJson (e : Expense)
  | msg (message : String)
deriving DecidableEq

/-- HTTP status of a response. -/
def ExpRes.status : ExpRes → Nat
  | .error s _ => s
  | .json _ => 200
  | .createdJson _ => 201
  | .msg _ => 200

/-- One character of MongoDB `$regex` matching with the `i` option, for
patterns inside the fragment this embedding covers (literal characters and
the metacharacter `.`): `.` matches any character, a literal matches up to
case. -/
def mongoCharMatch (p c : Char) : Bool :=
  p == '.' || p.toLower == c.toLower

/-- Does the pattern match some leading segment of the text. -/
def matchHere : List Char → List Char → Bool
  | [], _ => true
  | _ :: _, [] => false
  | p :: ps, c :: cs => mongoCharMatch p c && matchHere ps cs

/-- Unanchored matching: MongoDB `$regex` succeeds when the pattern matches
anywhere in the string. -/
def searchFrom (pat : List Char) : List Char → Bool
  | [] => matchHere pat []
  | c :: cs => matchHere pat (c :: cs) || searchFrom pat cs

/-- The `description: { $regex: search, $options: 'i' }` filter of the list
handler, for search strings inside the modelled regex fragment. -/
def regexSearch (pat s : String) : Bool :=
  searchFrom pat.toList s.toList

/-- Case-insensitive character equality for the literal-substring reading. -/
def ciCharEq (p c : Char) : Bool := p.toLower == c.toLower

/-- Literal prefix-of-text test for the substring reading. -/
def subHere : List Char → List Char → Bool
  | [], _ => true
  | _ :: _, [] => false
  | p :: ps, c :: cs => ciCharEq p c && subHere ps cs

/-- Literal occurs-anywhere test for the substring reading. -/
def subFrom (pat : List Char) : List Char → Bool
  | [] => subHere pat []
  | c :: cs => subHere pat (c :: cs) || subFrom pat cs

/-- Written from the specification's words, not from the code, for
comparison with `regexSearch`: the search parameter occurs in the
description as a case-insensitive literal substring. -/
def ciSubstring (pat s : String) : Bool :=
  subFrom pat.toList s.toList

/-- Optional query parameters of GET /api/expenses.  `none` is an absent
parameter; for `search` and `category` a present empty string is the falsy
value the handler's truthiness tests skip, and for the remaining parameters
a falsy raw value never installs a clause, so `none` also stands for it. -/
structure ExpenseQuery where
  search : Option String
  category : Option String
  startDate : Option JDate
  endDate : Option JDate
  minAmount : Option Rat
  maxAmount : Option Rat
deriving DecidableEq

/-- The query with every parameter absent. -/
def emptyQuery : ExpenseQuery :=
  { search := none, category := none, startDate := none, endDate := none,
    minAmount := none, maxAmount := none }

/-- The query object the GET /api/expenses handler builds, applied to one
document: always scoped by `userId`; each truthy parameter adds its clause
(`$regex` on description, equality on category, inclusive `$gte`/`$lte`
bounds on date and amount). -/
def matchesQuery (uid : Nat) (q : ExpenseQuery) (e : Expense) : Bool :=
  (e.userId == uid)
  && (match q.search with
      | some s => if s.isEmpty then true else regexSearch s e.description
      | none => true)
  && (match q.category with
      | some c => if c.isEmpty then true else e.category == c
      | none => true)
  && (match q.startDate with
      | some d => decide (JDate.le d e.date)
      | none => true)
  && (match q.endDate with
      | some d => decide (JDate.le e.date d)
      | none => true)
  && (match q.minAmount with
      | some m => decide (m ≤ e.amount)
      | none => true)
  && (match q.maxAmount with
      | some m => decide (e.amount ≤ m)
      | none => true)

/-- The sort order of `.sort({ date: -1 })`: newer or equal dates first. -/
def dateDesc (a b : Expense) : Prop := JDate.le b.date a.date

instance : DecidableRel dateDesc := fun a b => by
  unfold dateDesc
  infer_instance

/-- GET /api/expenses: all documents matching the built query, sorted by
date descending (`insertionSort` is the executable model of the database
sort). -/
def listExpenses (uid : Nat) (q : ExpenseQuery) (db : List Expense) : List Expense :=
  List.insertionSort dateDesc (db.filter (matchesQuery uid q))

/-- The requester's documents, the `$match: { userId }` stage. -/
def userExpenses (uid : Nat) (db : List Expense) : List Expense :=
  db.filter (fun e => e.userId == uid)

/-- One row of the `byCategory` aggregation. -/
structure CatEntry where
  category : String
  total : Rat
  count : Nat
deriving DecidableEq

/-- One row of the `monthlyExpenses` aggregation. -/
structure MonthEntry where
  year : Int
  month : Int
  total : Rat
  count : Nat
deriving DecidableEq

/-- The `(year, month)` group key of the monthly aggregation. -/
def monthKey (e : Expense) : Int × Int := (e.date.year, e.date.month)

/-- Documents entering the monthly aggregation: the requester's expenses
dated on or after `sixMonthsAgo now` (the `$match` stage has only this
lower bound). -/
def monthlyDocs (uid : Nat) (now : JDate) (db : List Expense) : List Expense :=
  db.filter (fun e => e.userId == uid && decide (JDate.le (sixMonthsAgo now) e.date))

/-- The `$group` stage by `(year, month)`: one row per distinct key, with
the sum of the amounts and the document count of that key. -/
def monthGroups (l : List Expense) : List MonthEntry :=
  ((l.map monthKey).dedup).map (fun k =>
    { year := k.1, month := k.2,
      total := ((l.filter (fun e => monthKey e == k)).map (fun e => e.amount)).sum,
      count := (l.filter (fun e => monthKey e == k)).length })

/-- The `$group` stage by category. -/
def catGroups (l : List Expense) : List CatEntry :=
  ((l.map (fun e => e.category)).dedup).map (fun c =>
    { category := c,
      total := ((l.filter (fun e => e.category == c)).map (fun e => e.amount)).sum,
      count := (l.filter (fun e => e.category == c)).length })

/-- The `$sort: { '_id.year': 1, '_id.month': 1 }` order of the monthly
aggregation: ascending by year, then month. -/
def monthAsc (a b : MonthEntry) : Prop :=
  a.year < b.year ∨ (a.year = b.year ∧ a.month ≤ b.month)

instance : DecidableRel monthAsc := fun a b => by
  unfold monthAsc
  infer_instance

/-- The `$sort: { total: -1 }` order of the category aggregation. -/
def catDesc (a b : CatEntry) : Prop := b.total ≤ a.total

instance : DecidableRel catDesc := fun a b => by
  unfold catDesc
  infer_instance

instance : IsTotal Expense dateDesc :=
  ⟨fun a b => by unfold dateDesc JDate.le; omega⟩

instance : IsTrans Expense dateDesc :=
  ⟨fun a b c hab hbc => by unfold dateDesc JDate.le at hab hbc ⊢; omega⟩

instance : IsTotal MonthEntry monthAsc :=
  ⟨fun a b => by unfold monthAsc; omega⟩

instance : IsTrans MonthEntry monthAsc :=
  ⟨fun a b c hab hbc => by unfold monthAsc at hab hbc ⊢; omega⟩

instance : IsTotal CatEntry catDesc :=
  ⟨fun a b => le_total b.total a.total⟩

instance : IsTrans CatEntry catDesc :=
  ⟨fun a b c hab hbc => le_trans hbc hab⟩

/-- The body of the GET /api/expenses/stats response. -/
structure StatsRes where
  totalExpenses : Rat
  byCategory : List CatEntry
  monthlyExpenses : List MonthEntry
deriving DecidableEq

/-- GET /api/expenses/stats: the three aggregations scoped to the
requester.  `totalExpenses[0]?.total || 0` yields 0 when the aggregation
over zero documents returns no row. -/
def stats (uid : Nat) (now : JDate) (db : List Expense) : StatsRes :=
  { totalExpenses :=
      match userExpenses uid db with
      | [] => 0
      | docs => (docs.map (fun e => e.amount)).sum,
    byCategory := List.insertionSort catDesc (catGroups (userExpenses uid db)),
    monthlyExpenses :=
      List.insertionSort monthAsc (monthGroups (monthlyDocs uid now db)) }

/-- JavaScript `v || old` for a string field of a fetched document: a
present non-empty value wins, an absent or empty one keeps `old`. -/
def strOr (v : Option String) (old : String) : String :=
  match v with
  | some s => if s.isEmpty then old else s
  | none => old

/-- JavaScript `v || old` for the date field: `some none` is the
present-but-falsy raw value, `some (some d)` a present date. -/
def dateOr (v : Option (Option JDate)) (old : JDate) : JDate :=
  match v with
  | some (some d) => d
  | some none => old
  | none => old

/-- Whitespace as the `trim()` sanitizer sees it. -/
def isSpace (c : Char) : Bool :=
  c == ' ' || c == '\t' || c == '\n' || c == '\r'

/-- Drop leading whitespace. -/
def dropSpace : List Char → List Char
  | [] => []
  | c :: cs => if isSpace c then dropSpace cs else c :: cs

/-- The express-validator `trim()` sanitizer (library code outside the
repository), modelled executably: strip whitespace from both ends. -/
def strTrim (s : String) : String :=
  ⟨(dropSpace ((dropSpace s.data).reverse)).reverse⟩

/-- Request body of PUT /api/expenses/:id. -/
structure UpdateBody where
  amount : Option Rat
  category : Option String
  description : Option String
  date : Option (Option JDate)
  paymentMethod : Option String
deriving DecidableEq

/-- The express-validator chain of PUT /api/expenses/:id: an optional
amount must be a number of at least 0, an optional description must be
non-empty after trimming, an optional date must be a well-formed ISO-8601
string (the present-but-falsy value fails this); category and
paymentMethod have no validator on this route. -/
def validatePut (p : UpdateBody) : Bool :=
  (match p.amount with | some a => decide (0 ≤ a) | none => true)
  && (match p.description with | some s => !(strTrim s).isEmpty | none => true)
  && (match p.date with | some (some _) => true | some none => false | none => true)

/-- The `trim()` sanitizer of the PUT chain rewrites the description field
before the handler body runs. -/
def sanitizePut (p : UpdateBody) : UpdateBody :=
  { p with description := p.description.map strTrim }

/-- The field assignments of the PUT handler:
`amount !== undefined ? amount : expense.amount` and the `||` fallbacks on
category, description, date and paymentMethod. -/
def applyUpdate (p : UpdateBody) (e : Expense) : Expense :=
  { e with
    amount := match p.amount with | some a => a | none => e.amount,
    category := strOr p.category e.category,
    description := strOr p.description e.description,
    date := dateOr p.date e.date,
    paymentMethod := strOr p.paymentMethod e.paymentMethod }

/-- GET /api/expenses/:id: lookup, then ownership check, then the document
as the body. -/
def getExpense (uid eid : Nat) (db : List Expense) : ExpRes × List Expense :=
  match findById eid db with
  | none => (.error 404 "Expense not found", db)
  | some e =>
    if e.userId ≠ uid then (.error 401 "Not authorized", db)
    else (.json e, db)

/-- PUT /api/expenses/:id: the validation result is checked first, then
lookup, then ownership, then the field assignments and the save. -/
def putExpense (uid eid : Nat) (p : UpdateBody) (db : List Expense) :
    ExpRes × List Expense :=
  if !validatePut p then (.error 400 "Validation failed", db)
  else
    match findById eid db with
    | none => (.error 404 "Expense not found", db)
    | some e =>
      if e.userId ≠ uid then (.error 401 "Not authorized", db)
      else
        let e2 := applyUpdate (sanitizePut p) e
        (.json e2, saveById eid e2 db)

/-- DELETE /api/expenses/:id: lookup, ownership check,
`expense.deleteOne()`, confirmation message. -/
def deleteExpense (uid eid : Nat) (db : List Expense) : ExpRes × List Expense :=
  match findById eid db with
  | none => (.error 404 "Expense not found", db)
  | some e =>
    if e.userId ≠ uid then (.error 401 "Not authorized", db)
    else (.msg "Expense removed", db.filter (fun x => x.id != eid))

/-- Request body of POST /api/expenses.  A `userId` field in the body is
representable but the handler never reads it. -/
structure CreateBody where
  bodyUserId : Option Nat
  amount : Rat
  category : String
  description : String
  date : Option (Option JDate)
  paymentMethod : String
deriving DecidableEq

/-- The express-validator chain of POST /api/expenses: amount is a number
of at least 0, category, trimmed description and paymentMethod are
non-empty, an optional date is a well-formed ISO-8601 string. -/
def validateCreate (p : CreateBody) : Bool :=
  decide (0 ≤ p.amount)
  && !p.category.isEmpty
  && !(strTrim p.description).isEmpty
  && (match p.date with | some none => false | _ => true)
  && !p.paymentMethod.isEmpty

/-- The document POST /api/expenses builds: `userId` comes from
`req.user._id`, never from the body; `newId` is the id Mongo assigns;
`now` is `Date.now()`, the default of a falsy or absent date. -/
def createdDoc (uid newId : Nat) (now : JDate) (p : CreateBody) : Expense :=
  { id := newId, userId := uid, amount := p.amount, category := p.category,
    description := strTrim p.description, date := dateOr p.date now,
    paymentMethod := p.paymentMethod }

/-- POST /api/expenses: validation, then `Expense.create` and a 201 with
the created document. -/
def createExpense (uid newId : Nat) (now : JDate) (p : CreateBody)
    (db : List Expense) : ExpRes × List Expense :=
  if !validateCreate p then (.error 400 "Validation failed", db)
  else (.createdJson (createdDoc uid newId now p), db ++ [createdDoc uid newId now p])

/-- Modelled from the spec: the User schema (`models/User.js` is not among
the sources; section 3 of the specification and the README list its
fields): name, unique email, hashed password, optional bio, phone and
avatar strings. -/
structure User where
  id : Nat
  name : String
  email : String
  password : String
  bio : Option String
  phone : Option String
  avatar : Option String
deriving DecidableEq

/-- The field subset PUT /api/users/profile responds with; by construction
it has no password field. -/
structure ProfileView where
  id : Nat
  name : String
  email : String
  bio : Option String
  phone : Option String
  avatar : Option String
deriving DecidableEq

/-- Projection of a stored user onto the response subset of the profile
update handler. -/
def profileViewOf (u : User) : ProfileView :=
  { id := u.id, name := u.name, email := u.email, bio := u.bio,
    phone := u.phone, avatar := u.avatar }

/-- Responses of the profile routes: `fullUser` is the GET handler's
`res.json(user)` with the whole stored record, `jsonNull` its body when
the lookup returns nothing, `ok` the PUT handler's shaped body. -/
inductive ProfileRes where
  | fullUser (u : User)
  | jsonNull
  | ok (v : ProfileView)
  | error (status : Nat) (message : String)
deriving DecidableEq

/-- GET /api/users/profile: the stored record, as found, whole. -/
def getProfile (uid : Nat) (users : List User) : ProfileRes :=
  match users.find? (fun u => u.id == uid) with
  | some u => .fullUser u
  | none => .jsonNull

/-- The password field of a response body, when the body carries one. -/
def resPassword : ProfileRes → Option String
  | .fullUser u => some u.password
  | _ => none

/-- Request body of PUT /api/users/profile. -/
structure ProfileBody where
  name : Option String
  email : Option String
  bio : Option String
  phone : Option String
  avatar : Option String
deriving DecidableEq

/-- Modelled from the spec: the express-validator `isEmail` check (library
code outside the repository), abstracted as a non-empty string that
contains an `@`. -/
def emailShaped (s : String) : Bool :=
  !s.isEmpty && s.data.contains '@'

/-- The express-validator chain of PUT /api/users/profile: an optional
name must be non-empty after trimming, an optional email must look like an
email; bio and phone are only trimmed, avatar is untouched. -/
def validateProfile (p : ProfileBody) : Bool :=
  (match p.name with | some s => !(strTrim s).isEmpty | none => true)
  && (match p.email with | some s => emailShaped s | none => true)

/-- The `trim()` sanitizers of the profile chain. -/
def sanitizeProfile (p : ProfileBody) : ProfileBody :=
  { p with
    name := p.name.map strTrim,
    bio := p.bio.map strTrim,
    phone := p.phone.map strTrim }

/-- JavaScript `v !== undefined ? v : old` for an optional stored string. -/
def optOr (v : Option String) (old : Option String) : Option String :=
  match v with
  | some s => some s
  | none => old

/-- PUT /api/users/profile: validation, lookup, the email-uniqueness check
(`if (email && email !== user.email)` followed by `User.findOne`), the
field assignments, the save and the shaped response. -/
def updateProfile (uid : Nat) (p0 : ProfileBody) (users : List User) :
    ProfileRes × List User :=
  if !validateProfile p0 then (.error 400 "Validation failed", users)
  else
    let p := sanitizeProfile p0
    match users.find? (fun u => u.id == uid) with
    | none => (.error 404 "User not found", users)
    | some user =>
      let emailTaken :=
        match p.email with
        | some em =>
          !em.isEmpty && em != user.email
            && (users.find? (fun u : User => u.email == em)).isSome
        | none => false
      if emailTaken then (.error 400 "Email already in use", users)
      else
        let u2 : User :=
          { user with
            name := strOr p.name user.name,
            email := strOr p.email user.email,
            bio := optOr p.bio user.bio,
            phone := optOr p.phone user.phone,
            avatar := optOr p.avatar user.avatar }
        (.ok (profileViewOf u2), users.map (fun x : User => if x.id = uid then u2 else x))

/-- A sample timestamp. -/
def d0 : JDate := { ym := 0, tick := 0 }

/-- A sample expense with a one-letter description, owned by user 7. -/
def eX : Expense :=
  { id := 1, userId := 7, amount := 5, category := "Other",
    description := "x", date := d0, paymentMethod := "Cash" }

/-- The list query whose search parameter is the regex metacharacter. -/
def qDot : ExpenseQuery :=
  { search := some ".", category := none, startDate := none, endDate := none,
    minAmount := none, maxAmount := none }

/-- A sample expense owned by user 2. -/
def eBob : Expense :=
  { id := 10, userId := 2, amount := 3, category := "Travel",
    description := "trip", date := d0, paymentMethod := "Cash" }

/-- An update body whose amount fails validation. -/
def pBad : UpdateBody :=
  { amount := some (-1), category := none, description := none,
    date := none, paymentMethod := none }

/-- An update body that changes only the amount. -/
def pAmt : UpdateBody :=
  { amount := some 7, category := none, description := none,
    date := none, paymentMethod := none }

/-- An update body whose every field is present but falsy, except the
amount, which is the falsy-but-applied 0. -/
def pZero : UpdateBody :=
  { amount := some 0, category := some "", description := some "",
    date := some none, paymentMethod := some "" }

/-- A sample request instant for the stats endpoint. -/
def nowD : JDate := { ym := 100, tick := 0 }

/-- A sample expense dated five months after `nowD`. -/
def eFuture : Expense :=
  { id := 3, userId := 4, amount := 2, category := "Other",
    description := "later", date := { ym := 105, tick := 0 },
    paymentMethod := "Cash" }

/-- A sample user. -/
def alice : User :=
  { id := 1, name := "Alice", email := "a@x.com", password := "hash1",
    bio := none, phone := none, avatar := none }

/-- A second sample user, holder of the contested email. -/
def bob : User :=
  { id := 2, name := "Bob", email := "b@x.com", password := "hash2",
    bio := none, phone := none, avatar := none }

/-- A profile body that tries to take over the second user's email. -/
def pTaken : ProfileBody :=
  { name := none, email := some "b@x.com", bio := none, phone := none,
    avatar := none }

/-- A profile body that changes nothing. -/
def pNoop : ProfileBody :=
  { name := none, email := none, bio := none, phone := none, avatar := none }

/-- A profile body that asks for the second user's email but also carries a
present-but-empty name, which fails the name validator. -/
def pBadName : ProfileBody :=
  { name := some "", email := some "b@x.com", bio := none, phone := none,
    avatar := none }

/-- A create body that smuggles a foreign userId into the request. -/
def pCreate : CreateBody :=
  { bodyUserId := some 99, amount := 50, category := "Food & Dining",
    description := "Lunch", date := none, paymentMethod := "Cash" }

theorem bool_and_left {a b : Bool} (h : (a && b) = true) : a = true := by
  cases a <;> simp_all

theorem bool_and_right {a b : Bool} (h : (a && b) = true) : b = true := by
  cases a <;> simp_all

/-- C2: for every POST /api/expenses whose body passes validation, the
created and returned record's userId is the authenticated caller's id, the
status is 201, and the body's own userId field is irrelevant: replacing it
changes nothing about the request's outcome. -/
theorem createExpense_userId (uid newId : Nat) (now : JDate) (p : CreateBody)
    (db : List Expense) (hv : validateCreate p = true) :
    createExpense uid newId now p db
      = (.createdJson (createdDoc uid newId now p), db ++ [createdDoc uid newId now p])
    ∧ (createdDoc uid newId now p).userId = uid
    ∧ (createExpense uid newId now p db).1.status = 201
    ∧ (∀ w : Option Nat,
        createExpense uid newId now { p with bodyUserId := w } db
          = createExpense uid newId now p db) := by
  have h1 : createExpense uid newId now p db
      = (.createdJson (createdDoc uid newId now p), db ++ [createdDoc uid newId now p]) := by
    unfold createExpense
    rw [hv]
    rfl
  refine ⟨h1, rfl, ?_, fun w => rfl⟩
  rw [h1]
  rfl

/-- Witness for C2: a concrete create whose body carries a foreign userId
of 99 still stores the caller's id 1. -/
theorem createExpense_userId_witness :
    createExpense 1 5 d0 pCreate []
      = (.createdJson (createdDoc 1 5 d0 pCreate), [createdDoc 1 5 d0 pCreate])
    ∧ (createdDoc 1 5 d0 pCreate).userId = 1 :=
  ⟨(createExpense_userId 1 5 d0 pCreate [] (by decide)).1,
   (createExpense_userId 1 5 d0 pCreate [] (by decide)).2.1⟩

/-- C9: GET /api/users/profile responds with the stored user record whole,
the hashed password field included. -/
theorem getProfile_full (uid : Nat) (users : List User) (u : User)
    (hfind : users.find? (fun x : User => x.id == uid) = some u) :
    getProfile uid users = .fullUser u
    ∧ resPassword (getProfile uid users) = some u.password := by
  unfold getProfile
  rw [hfind]
  exact ⟨rfl, rfl⟩

/-- Witness for C9 at a concrete one-user store. -/
theorem getProfile_full_witness :
    getProfile 1 [alice] = .fullUser alice
    ∧ resPassword (getProfile 1 [alice]) = some alice.password :=
  getProfile_full 1 [alice] alice (by decide)

/-- C10: in the PUT /api/expenses/:id field assignments, a present amount
of 0 is applied (the handler tests `!== undefined`), while a category,
description, date or paymentMethod that is present but falsy is ignored
and the stored value is kept (the handler tests truthiness with `||`). -/
theorem applyUpdate_falsy (e : Expense) (p : UpdateBody) :
    (p.amount = some 0 → (applyUpdate p e).amount = 0)
    ∧ (p.category = some "" → (applyUpdate p e).category = e.category)
    ∧ (p.description = some "" → (applyUpdate p e).description = e.description)
    ∧ (p.date = some none → (applyUpdate p e).date = e.date)
    ∧ (p.paymentMethod = some "" → (applyUpdate p e).paymentMethod = e.paymentMethod) := by
  have hempty : "".isEmpty = true := rfl
  refine ⟨fun h => ?_, fun h => ?_, fun h => ?_, fun h => ?_, fun h => ?_⟩ <;>
    simp [applyUpdate, strOr, dateOr, h, hempty]

/-- Witness for C10: the all-falsy body applied to a concrete expense. -/
theorem applyUpdate_falsy_witness :
    (applyUpdate pZero eX).amount = 0
    ∧ (applyUpdate pZero eX).category = eX.category
    ∧ (applyUpdate pZero eX).description = eX.description
    ∧ (applyUpdate pZero eX).date = eX.date
    ∧ (applyUpdate pZero eX).paymentMethod = eX.paymentMethod := by
  have h := applyUpdate_falsy eX pZero
  exact ⟨h.1 rfl, h.2.1 rfl, h.2.2.1 rfl, h.2.2.2.1 rfl, h.2.2.2.2 rfl⟩

/-- C1 (amended): on an existing expense owned by someone else, GET and
DELETE respond 401 and change nothing; PUT responds 401 provided its
payload passes validation (an invalid payload gets the 400 of the
validation stage, which runs first), and in every case the stored data is
unmodified. -/
theorem foreignExpense_unmodified (uid eid : Nat) (p : UpdateBody)
    (db : List Expense) (e : Expense)
    (hfind : findById eid db = some e) (hown : e.userId ≠ uid) :
    getExpense uid eid db = (.error 401 "Not authorized", db)
    ∧ deleteExpense uid eid db = (.error 401 "Not authorized", db)
    ∧ (validatePut p = true →
        putExpense uid eid p db = (.error 401 "Not authorized", db))
    ∧ (putExpense uid eid p db).2 = db := by
  refine ⟨?_, ?_, fun hv => ?_, ?_⟩
  · simp [getExpense, hfind, hown]
  · simp [deleteExpense, hfind, hown]
  · simp [putExpense, hv, hfind, hown]
  · cases hv : validatePut p
    · simp [putExpense, hv]
    · simp [putExpense, hv, hfind, hown]

/-- Witness for C1: a concrete foreign-owned expense is served a 401 and
survives a DELETE attempt. -/
theorem foreignExpense_unmodified_witness :
    getExpense 1 10 [eBob] = (.error 401 "Not authorized", [eBob])
    ∧ deleteExpense 1 10 [eBob] = (.error 401 "Not authorized", [eBob])
    ∧ putExpense 1 10 pAmt [eBob] = (.error 401 "Not authorized", [eBob]) :=
  ⟨(foreignExpense_unmodified 1 10 pAmt [eBob] eBob (by decide) (by decide)).1,
   (foreignExpense_unmodified 1 10 pAmt [eBob] eBob (by decide) (by decide)).2.1,
   (foreignExpense_unmodified 1 10 pAmt [eBob] eBob (by decide) (by decide)).2.2.1
     (by decide)⟩

/-- C1 counterexample: a PUT with an invalid payload (negative amount) on
an existing expense owned by someone else responds 400, not the claimed
401, because validation runs before the ownership check. -/
theorem put_foreign_invalid_is_400 :
    findById 10 [eBob] = some eBob ∧ eBob.userId ≠ 1
    ∧ (putExpense 1 10 pBad [eBob]).1.status = 400
    ∧ (putExpense 1 10 pBad [eBob]).1.status ≠ 401 := by decide

/-- C7 (amended): when no expense has the requested id, GET and DELETE
respond 404 and change nothing; PUT responds 404 provided its payload
passes validation (an invalid payload gets the validation stage's 400),
and in every case the stored data is unmodified.  A DELETE on an existing
expense owned by the requester removes exactly the documents with that id
and responds with the confirmation message. -/
theorem missingExpense_404_delete_removes (uid eid : Nat) (p : UpdateBody)
    (db : List Expense) :
    (findById eid db = none →
      getExpense uid eid db = (.error 404 "Expense not found", db)
      ∧ deleteExpense uid eid db = (.error 404 "Expense not found", db)
      ∧ (validatePut p = true →
          putExpense uid eid p db = (.error 404 "Expense not found", db))
      ∧ (putExpense uid eid p db).2 = db)
    ∧ (∀ e : Expense, findById eid db = some e → e.userId = uid →
        deleteExpense uid eid db
          = (.msg "Expense removed", db.filter (fun x => x.id != eid))) := by
  constructor
  · intro hnone
    refine ⟨?_, ?_, fun hv => ?_, ?_⟩
    · simp [getExpense, hnone]
    · simp [deleteExpense, hnone]
    · simp [putExpense, hv, hnone]
    · cases hv : validatePut p
      · simp [putExpense, hv]
      · simp [putExpense, hv, hnone]
  · intro e hfind hown
    simp [deleteExpense, hfind, hown]

/-- Witness for C7: a missing id gets a 404 on an empty store, and the
owner's DELETE of a concrete expense removes it. -/
theorem missingExpense_404_witness :
    (getExpense 1 1 [] = (.error 404 "Expense not found", [])
      ∧ (putExpense 1 1 pAmt []).2 = ([] : List Expense))
    ∧ deleteExpense 2 10 [eBob] = (.msg "Expense removed", []) :=
  ⟨⟨((missingExpense_404_delete_removes 1 1 pAmt []).1 (by decide)).1,
    ((missingExpense_404_delete_removes 1 1 pAmt []).1 (by decide)).2.2.2⟩,
   (missingExpense_404_delete_removes 2 10 pAmt [eBob]).2 eBob (by decide) (by decide)⟩

/-- C7 counterexample: a PUT with an invalid payload for an id that does
not exist responds 400, not the claimed 404, because validation runs
before the lookup. -/
theorem put_missing_invalid_is_400 :
    findById 1 ([] : List Expense) = none
    ∧ (putExpense 1 1 pBad []).1.status = 400
    ∧ (putExpense 1 1 pBad []).1.status ≠ 404 := by decide

/-- C3: a successful PUT on an owned expense responds with the updated
document, stores it in place, and every omitted field keeps exactly its
prior stored value. -/
theorem putExpense_frame (uid eid : Nat) (p : UpdateBody) (db : List Expense)
    (e : Expense) (hfind : findById eid db = some e) (hown : e.userId = uid)
    (hv : validatePut p = true) :
    putExpense uid eid p db
      = (.json (applyUpdate (sanitizePut p) e),
         saveById eid (applyUpdate (sanitizePut p) e) db)
    ∧ (p.amount = none → (applyUpdate (sanitizePut p) e).amount = e.amount)
    ∧ (p.category = none → (applyUpdate (sanitizePut p) e).category = e.category)
    ∧ (p.description = none →
        (applyUpdate (sanitizePut p) e).description = e.description)
    ∧ (p.date = none → (applyUpdate (sanitizePut p) e).date = e.date)
    ∧ (p.paymentMethod = none →
        (applyUpdate (sanitizePut p) e).paymentMethod = e.paymentMethod) := by
  refine ⟨?_, fun h => ?_, fun h => ?_, fun h => ?_, fun h => ?_, fun h => ?_⟩
  · simp [putExpense, hv, hfind, hown]
  all_goals simp [applyUpdate, sanitizePut, strOr, dateOr, h]

/-- Witness for C3: updating only the amount of a concrete expense leaves
its category, description, date and payment method as they were. -/
theorem putExpense_frame_witness :
    putExpense 2 10 pAmt [eBob]
      = (.json (applyUpdate (sanitizePut pAmt) eBob),
         saveById 10 (applyUpdate (sanitizePut pAmt) eBob) [eBob])
    ∧ (applyUpdate (sanitizePut pAmt) eBob).category = eBob.category
    ∧ (applyUpdate (sanitizePut pAmt) eBob).description = eBob.description
    ∧ (applyUpdate (sanitizePut pAmt) eBob).date = eBob.date
    ∧ (applyUpdate (sanitizePut pAmt) eBob).paymentMethod = eBob.paymentMethod :=
  ⟨(putExpense_frame 2 10 pAmt [eBob] eBob (by decide) (by decide) (by decide)).1,
   (putExpense_frame 2 10 pAmt [eBob] eBob (by decide) (by decide) (by decide)).2.2.1
     rfl,
   (putExpense_frame 2 10 pAmt [eBob] eBob (by decide) (by decide) (by decide)).2.2.2.1
     rfl,
   (putExpense_frame 2 10 pAmt [eBob] eBob (by decide) (by decide) (by decide)).2.2.2.2.1
     rfl,
   (putExpense_frame 2 10 pAmt [eBob] eBob (by decide) (by decide) (by decide)).2.2.2.2.2
     rfl⟩

/-- C4 (amended): the list endpoint returns a permutation of the
requester's documents that match every supplied filter clause — the search
parameter being interpreted as a case-insensitive regular expression, not
a literal substring — and the result is sorted by date descending. -/
theorem listExpenses_characterization (uid : Nat) (q : ExpenseQuery)
    (db : List Expense) :
    List.Perm (listExpenses uid q db) (db.filter (matchesQuery uid q))
    ∧ List.Sorted dateDesc (listExpenses uid q db)
    ∧ (∀ e : Expense,
        e ∈ listExpenses uid q db ↔ e ∈ db ∧ matchesQuery uid q e = true) := by
  unfold listExpenses
  refine ⟨List.perm_insertionSort dateDesc _,
          List.sorted_insertionSort dateDesc _, fun e => ?_⟩
  rw [(List.perm_insertionSort dateDesc _).mem_iff, List.mem_filter]

/-- Witness for C4 at a concrete store and the empty query. -/
theorem listExpenses_characterization_witness :
    eX ∈ listExpenses 7 emptyQuery [eX] ∧ matchesQuery 7 emptyQuery eX = true :=
  ⟨((listExpenses_characterization 7 emptyQuery [eX]).2.2 eX).mpr
     ⟨by decide, by decide⟩,
   by decide⟩

/-- C4 counterexample: with search parameter `.` the handler returns an
expense whose description is `x`, although `.` is not a case-insensitive
substring of `x` — the parameter is a regex pattern, not a literal. -/
theorem listExpenses_not_substring :
    eX ∈ listExpenses 7 qDot [eX] ∧ ciSubstring "." "x" = false := by decide

theorem matches_emptyQuery (uid : Nat) (e : Expense) :
    matchesQuery uid emptyQuery e = (e.userId == uid) := by
  simp [matchesQuery, emptyQuery]

theorem filter_emptyQuery (uid : Nat) (db : List Expense) :
    db.filter (matchesQuery uid emptyQuery) = userExpenses uid db := by
  unfold userExpenses
  exact List.filter_congr (fun e _ => matches_emptyQuery uid e)

theorem stats_total_eq_sum (uid : Nat) (now : JDate) (db : List Expense) :
    (stats uid now db).totalExpenses
      = ((userExpenses uid db).map (fun e => e.amount)).sum := by
  have hdef : (stats uid now db).totalExpenses
      = (match userExpenses uid db with
         | [] => (0 : Rat)
         | docs => (docs.map (fun e => e.amount)).sum) := rfl
  rw [hdef]
  cases h : userExpenses uid db with
  | nil => simp
  | cons a l => rfl

/-- C5: the stats endpoint's totalExpenses equals the sum of the amounts
of the unfiltered list endpoint's result for the same user, and a user
with no expenses gets a zero total and empty groupings. -/
theorem stats_total_matches_list (uid : Nat) (now : JDate) (db : List Expense) :
    (stats uid now db).totalExpenses
      = ((listExpenses uid emptyQuery db).map (fun e => e.amount)).sum
    ∧ (userExpenses uid db = [] →
        (stats uid now db).totalExpenses = 0
        ∧ (stats uid now db).byCategory = []
        ∧ (stats uid now db).monthlyExpenses = []) := by
  constructor
  · rw [stats_total_eq_sum]
    have hperm : List.Perm (listExpenses uid emptyQuery db) (userExpenses uid db) := by
      rw [← filter_emptyQuery]
      exact List.perm_insertionSort dateDesc _
    exact ((hperm.map (fun e => e.amount)).sum_eq).symm
  · intro h
    refine ⟨?_, ?_, ?_⟩
    · rw [stats_total_eq_sum, h]
      rfl
    · show List.insertionSort catDesc (catGroups (userExpenses uid db)) = []
      rw [h]
      rfl
    · show List.insertionSort monthAsc (monthGroups (monthlyDocs uid now db)) = []
      have hm : monthlyDocs uid now db = [] := by
        unfold userExpenses at h
        unfold monthlyDocs
        rw [List.filter_eq_nil_iff] at h ⊢
        intro e he hc
        exact h e he (bool_and_left hc)
      rw [hm]
      rfl

/-- Witness for C5 with a one-expense store and an empty store. -/
theorem stats_total_matches_list_witness :
    (stats 7 d0 [eX]).totalExpenses
      = ((listExpenses 7 emptyQuery [eX]).map (fun e => e.amount)).sum
    ∧ ((stats 1 d0 []).totalExpenses = 0
        ∧ (stats 1 d0 []).byCategory = []
        ∧ (stats 1 d0 []).monthlyExpenses = []) :=
  ⟨(stats_total_matches_list 7 d0 [eX]).1,
   (stats_total_matches_list 1 d0 []).2 rfl⟩

theorem monthGroups_spec (l : List Expense) :
    (∀ g ∈ monthGroups l,
      g.total = ((l.filter (fun e => monthKey e == (g.year, g.month))).map
                   (fun e => e.amount)).sum
      ∧ g.count = (l.filter (fun e => monthKey e == (g.year, g.month))).length)
    ∧ (∀ e ∈ l, ∃ g ∈ monthGroups l, (g.year, g.month) = monthKey e)
    ∧ List.Nodup ((monthGroups l).map (fun g => (g.year, g.month))) := by
  refine ⟨?_, ?_, ?_⟩
  · intro g hg
    unfold monthGroups at hg
    rcases List.mem_map.mp hg with ⟨k, hk, rfl⟩
    exact ⟨rfl, rfl⟩
  · intro e he
    refine ⟨_, List.mem_map.mpr
      ⟨monthKey e, List.mem_dedup.mpr (List.mem_map.mpr ⟨e, he, rfl⟩), rfl⟩, rfl⟩
  · unfold monthGroups
    rw [List.map_map]
    have hcomp :
        ((fun g : MonthEntry => (g.year, g.month)) ∘
          (fun k : Int × Int =>
            ({ year := k.1, month := k.2,
               total := ((l.filter (fun e => monthKey e == k)).map
                          (fun e => e.amount)).sum,
               count := (l.filter (fun e => monthKey e == k)).length } :
              MonthEntry))) = id :=
      funext (fun k => rfl)
    rw [hcomp, List.map_id]
    exact List.nodup_dedup _

/-- C8 (amended): monthlyExpenses contains one row per distinct
(year, month) among the requester's expenses dated on or after the instant
six calendar months before the request time (there is no upper bound, so
future-dated expenses are included), each row carrying that group's amount
sum and document count, and the rows are sorted ascending by year then
month. -/
theorem monthly_stats_characterization (uid : Nat) (now : JDate)
    (db : List Expense) :
    List.Sorted monthAsc ((stats uid now db).monthlyExpenses)
    ∧ (∀ e : Expense, e ∈ monthlyDocs uid now db ↔
        e ∈ db ∧ e.userId = uid ∧ JDate.le (sixMonthsAgo now) e.date)
    ∧ (∀ g ∈ (stats uid now db).monthlyExpenses,
        g.total = (((monthlyDocs uid now db).filter
                     (fun e => monthKey e == (g.year, g.month))).map
                     (fun e => e.amount)).sum
        ∧ g.count = ((monthlyDocs uid now db).filter
                      (fun e => monthKey e == (g.year, g.month))).length)
    ∧ (∀ e ∈ monthlyDocs uid now db,
        ∃ g ∈ (stats uid now db).monthlyExpenses, (g.year, g.month) = monthKey e)
    ∧ List.Nodup
        (((stats uid now db).monthlyExpenses).map (fun g => (g.year, g.month))) := by
  have hperm : List.Perm ((stats uid now db).monthlyExpenses)
      (monthGroups (monthlyDocs uid now db)) :=
    List.perm_insertionSort monthAsc _
  refine ⟨?_, ?_, ?_, ?_, ?_⟩
  · exact List.sorted_insertionSort monthAsc _
  · intro e
    unfold monthlyDocs
    rw [List.mem_filter]
    constructor
    · rintro ⟨hdb, hb⟩
      exact ⟨hdb, beq_iff_eq.mp (bool_and_left hb),
             of_decide_eq_true (bool_and_right hb)⟩
    · rintro ⟨hdb, hu, hle⟩
      refine ⟨hdb, ?_⟩
      rw [hu]
      simp [hle]
  · intro g hg
    exact (monthGroups_spec (monthlyDocs uid now db)).1 g (hperm.subset hg)
  · intro e he
    rcases (monthGroups_spec (monthlyDocs uid now db)).2.1 e he with ⟨g, hgm, hk⟩
    exact ⟨g, hperm.mem_iff.mpr hgm, hk⟩
  · exact ((hperm.map (fun g => (g.year, g.month))).nodup_iff).mpr
      (monthGroups_spec (monthlyDocs uid now db)).2.2

/-- Witness for C8: a concrete store produces a group row carrying the key
of its single expense. -/
theorem monthly_stats_witness :
    eFuture ∈ monthlyDocs 4 nowD [eFuture]
    ∧ ∃ g ∈ (stats 4 nowD [eFuture]).monthlyExpenses,
        (g.year, g.month) = monthKey eFuture :=
  ⟨((monthly_stats_characterization 4 nowD [eFuture]).2.1 eFuture).mpr
     ⟨by decide, by decide, by decide⟩,
   (monthly_stats_characterization 4 nowD [eFuture]).2.2.2.1 eFuture (by decide)⟩

/-- C8 counterexample: an expense dated five months after the request time
still shows up in monthlyExpenses, although it is not within the trailing
six months of the request time — the `$match` stage has no upper bound. -/
theorem monthly_includes_future :
    (∃ g ∈ (stats 4 nowD [eFuture]).monthlyExpenses,
        (g.year, g.month) = monthKey eFuture)
    ∧ ¬ JDate.le eFuture.date nowD := by decide

/-- C6 (amended): an attempt to change the profile email to one already
held by some user is refused with 400 and the message
`Email already in use`, leaving the store untouched, provided the payload
passes validation (a payload failing a validator gets the validation
stage's 400 instead, since that stage runs first); and every successful
update responds with the shaped subset `profileViewOf` of the saved
record, a type that carries only id, name, email, bio, phone and avatar
and no password field. -/
theorem updateProfile_email_and_shape (uid : Nat) (p : ProfileBody)
    (users : List User) :
    (∀ user em,
      users.find? (fun u : User => u.id == uid) = some user →
      validateProfile p = true →
      p.email = some em →
      em ≠ user.email →
      (users.find? (fun u : User => u.email == em)).isSome = true →
      updateProfile uid p users = (.error 400 "Email already in use", users))
    ∧ (∀ v users2, updateProfile uid p users = (.ok v, users2) →
        ∃ u2 : User, v = profileViewOf u2) := by
  constructor
  · intro user em hfind hval hemail hne hex
    have hshape : emailShaped em = true := by
      unfold validateProfile at hval
      rw [hemail] at hval
      exact bool_and_right hval
    have hnonempty : em.isEmpty = false := by
      have h1 : (!em.isEmpty) = true := bool_and_left hshape
      cases h2 : em.isEmpty
      · rfl
      · rw [h2] at h1
        exact absurd h1 (by decide)
    have hbe : (em == user.email) = false := by
      cases h2 : em == user.email
      · rfl
      · exact absurd (beq_iff_eq.mp h2) hne
    simp [updateProfile, hval, hfind, sanitizeProfile, hemail, hnonempty,
          hex, bne, hbe]
  · intro v users2 hres
    unfold updateProfile at hres
    cases hval : validateProfile p with
    | false =>
      rw [hval] at hres
      simp at hres
    | true =>
      rw [hval] at hres
      cases hfind : users.find? (fun u : User => u.id == uid) with
      | none =>
        rw [hfind] at hres
        simp at hres
      | some user =>
        rw [hfind] at hres
        rw [if_neg (show ¬((!true) = true) by decide)] at hres
        dsimp only at hres
        split at hres
        · exact absurd hres (by simp)
        · exact ⟨_, (ProfileRes.ok.inj (congrArg Prod.fst hres)).symm⟩

/-- Witness for C6: the concrete takeover attempt is refused and a no-op
update responds with a shaped body. -/
theorem updateProfile_email_and_shape_witness :
    updateProfile 1 pTaken [alice, bob]
      = (.error 400 "Email already in use", [alice, bob])
    ∧ ∃ u2 : User, profileViewOf alice = profileViewOf u2 :=
  ⟨(updateProfile_email_and_shape 1 pTaken [alice, bob]).1 alice "b@x.com"
     (by decide) (by decide) rfl (by decide) (by decide),
   (updateProfile_email_and_shape 1 pNoop [alice]).2 (profileViewOf alice) [alice]
     (by decide)⟩

/-- C6 counterexample: a payload whose email differs from the requester's
stored email and is held by another user, but whose name field is present
and empty, fails the name validator and is answered by the validation
stage's 400, not the message `Email already in use` — validation runs
before the email-uniqueness check. -/
theorem profile_invalid_not_email_message :
    List.find? (fun u : User => u.id == 1) [alice, bob] = some alice
    ∧ pBadName.email = some "b@x.com"
    ∧ "b@x.com" ≠ alice.email
    ∧ (∃ u ∈ [alice, bob], u.email = "b@x.com")
    ∧ updateProfile 1 pBadName [alice, bob]
        = (.error 400 "Validation failed", [alice, bob])
    ∧ updateProfile 1 pBadName [alice, bob]
        ≠ (.error 400 "Email already in use", [alice, bob]) := by decide
